import Mathlib

/-!
Walk-in queue subsystem and appointment scheduler: shallow embedding.

This file embeds the queue service (`QueueService` in the NestJS backend) and
the appointment service (`AppointmentService`) of the clinic front-desk
application as pure Lean functions over explicit state, and proves the
testable properties of the specification against them.

Modelling conventions:
* `status` and `priority` are `String`s, exactly as in the TypeScript
  entities (plain varchar columns, no enum type).
* The database table backing `Queue` is a `List QueueEntry` in insertion
  order; `repository.count` is `List.length`, `repository.findOne {where}`
  is `List.find?`, `repository.save` of a fetched row is an in-place field
  update keyed on `id`, `repository.remove` is a `filter`, and inserting a
  freshly `create`d row is an append with a generated primary key.
* MySQL `ORDER BY priority DESC, queueNumber ASC` on a varchar column sorts
  the priority strings lexicographically descending; we model the ordered
  query with a stable insertion sort under that boolean order.
* Timestamps (`createdAt`, the clock `now`) are `Nat` milliseconds.
* Thrown `NotFoundException` / `BadRequestException` become
  `Except ServiceError`; an error leaves the state unchanged.
-/

namespace Clinic

/-- The `Queue` entity (`queue` table): id, queueNumber, patientId,
status (varchar, default `waiting`), priority (varchar, default `normal`),
createdAt timestamp. There is no notes column. -/
structure QueueEntry where
  id : Nat
  queueNumber : Nat
  patientId : Nat
  status : String
  priority : String
  createdAt : Nat
deriving DecidableEq, Repr

/-- Persistent state seen by `QueueService`: the patient directory (ids of
existing patients), the `queue` table rows in insertion order, the next
auto-generated primary key, and the database clock. -/
structure ClinicState where
  patients : List Nat
  queue : List QueueEntry
  nextId : Nat
  now : Nat
deriving DecidableEq, Repr

/-- `NotFoundException` / `BadRequestException` raised by the services. -/
inductive ServiceError where
  | notFound (msg : String)
  | badRequest (msg : String)
deriving DecidableEq, Repr

/-- Lexicographic order on character lists by code point — the collation
MySQL applies when ordering a varchar column. -/
def charListLt : List Char → List Char → Bool
  | [], [] => false
  | [], _ :: _ => true
  | _ :: _, [] => false
  | a :: as, b :: bs =>
      if a.toNat < b.toNat then true
      else if b.toNat < a.toNat then false
      else charListLt as bs

/-- Lexicographic string comparison (MySQL varchar ordering). -/
def strLt (a b : String) : Bool := charListLt a.toList b.toList

/-- `ORDER BY priority DESC, queueNumber ASC` over the varchar `priority`
column: MySQL compares the strings lexicographically, so `DESC` puts the
lexicographically largest priority string first; ties are broken by
ascending `queueNumber`. -/
def priorityDescLe (a b : QueueEntry) : Bool :=
  if a.priority == b.priority then a.queueNumber ≤ b.queueNumber
  else strLt b.priority a.priority

/-- Insert into a list sorted under `le` (helper for the stable sort that
models the SQL `ORDER BY`). -/
def orderedInsert (le : QueueEntry → QueueEntry → Bool) (a : QueueEntry) :
    List QueueEntry → List QueueEntry
  | [] => [a]
  | b :: l => if le a b then a :: b :: l else b :: orderedInsert le a l

/-- Stable insertion sort modelling the SQL `ORDER BY` of the queue
queries. -/
def sortBy (le : QueueEntry → QueueEntry → Bool) : List QueueEntry → List QueueEntry
  | [] => []
  | a :: l => orderedInsert le a (sortBy le l)

/-- `queueRepository.findOne({where: {patientId, status: 'waiting'}})`. -/
def findWaitingByPatient (s : ClinicState) (patientId : Nat) : Option QueueEntry :=
  s.queue.find? (fun e => e.patientId == patientId && e.status == "waiting")

/-- `patientRepository.findOne({where: {id}})` as a boolean existence check
(the services only test the result against null). -/
def patientExists (s : ClinicState) (patientId : Nat) : Bool :=
  s.patients.contains patientId

/-- `QueueService.addToQueue(patientId, priority = 'normal', notes?)`:
validates the patient, rejects a duplicate waiting admission, assigns
`queueNumber = 0` for emergency priority and `count() + 1` otherwise, and
inserts a `waiting` entry. The optional `notes` argument is accepted but the
entity has no notes column, so it is never used. -/
def addToQueue (s : ClinicState) (patientId : Nat) (priority : String := "normal")
    (notes : Option String := none) : Except ServiceError (ClinicState × QueueEntry) :=
  if ¬ patientExists s patientId then
    .error (.notFound s!"Patient with ID {patientId} not found")
  else if (findWaitingByPatient s patientId).isSome then
    .error (.badRequest "Patient is already in the waiting queue")
  else
    let queueNumber : Nat := if priority == "emergency" then 0 else s.queue.length + 1
    let entry : QueueEntry :=
      { id := s.nextId, queueNumber := queueNumber, patientId := patientId,
        status := "waiting", priority := priority, createdAt := s.now }
    .ok ({ s with queue := s.queue ++ [entry], nextId := s.nextId + 1 }, entry)

/-- Overwrite the status field of a row (the mutation performed by
`updateStatus` before saving). -/
def setStatus (st : String) (x : QueueEntry) : QueueEntry :=
  { x with status := st }

/-- Overwrite the priority and queue number of a row (the mutation
performed by `updatePriority` / emergency promotion before saving). -/
def setPriorityNumber (pr : String) (qn : Nat) (x : QueueEntry) : QueueEntry :=
  { x with priority := pr, queueNumber := qn }

/-- The in-place promotion performed by `addEmergencyPatient` on an existing
waiting entry: `priority = 'emergency'`, `queueNumber = 0`. -/
def promoteEmergency (e : QueueEntry) : QueueEntry :=
  setPriorityNumber "emergency" 0 e

/-- `repository.save` of a fetched-and-mutated row: update the row with the
given primary key in place. -/
def saveUpdated (q : List QueueEntry) (targetId : Nat) (f : QueueEntry → QueueEntry) :
    List QueueEntry :=
  q.map (fun x => if x.id == targetId then f x else x)

/-- `QueueService.addEmergencyPatient(patientId)`: validates the patient;
if a waiting entry already exists it is promoted in place to
`priority = 'emergency', queueNumber = 0` and returned; otherwise a new
entry with `queueNumber = 0, status = 'waiting', priority = 'emergency'`
is inserted. -/
def addEmergencyPatient (s : ClinicState) (patientId : Nat) :
    Except ServiceError (ClinicState × QueueEntry) :=
  if ¬ patientExists s patientId then
    .error (.notFound s!"Patient with ID {patientId} not found")
  else
    match findWaitingByPatient s patientId with
    | some existingQueue =>
        .ok ({ s with queue := saveUpdated s.queue existingQueue.id promoteEmergency },
             promoteEmergency existingQueue)
    | none =>
        let entry : QueueEntry :=
          { id := s.nextId, queueNumber := 0, patientId := patientId,
            status := "waiting", priority := "emergency", createdAt := s.now }
        .ok ({ s with queue := s.queue ++ [entry], nextId := s.nextId + 1 }, entry)

/-- The allow-list of status values accepted by `QueueService.updateStatus`
(and by the controller): note the hyphenated `with-doctor`. -/
def validStatuses : List String := ["waiting", "with-doctor", "completed", "cancelled"]

/-- The `statusMapping` dictionary of `updateStatus`: the accepted frontend
value `with-doctor` is stored as `with_doctor`; every other value maps to
itself (`statusMapping[status] || status`). -/
def statusMapping (status : String) : String :=
  if status == "with-doctor" then "with_doctor" else status

/-- `QueueService.updateStatus(queueId, status)`: rejects a status outside
the allow-list before touching the store, then `NotFound` if the entry is
absent, else overwrites the entry's status with the mapped value. -/
def updateStatus (s : ClinicState) (queueId : Nat) (status : String) :
    Except ServiceError (ClinicState × QueueEntry) :=
  if ¬ validStatuses.contains status then
    .error (.badRequest "Invalid status. Must be one of: waiting, with-doctor, completed, cancelled")
  else
    match s.queue.find? (fun e => e.id == queueId) with
    | none => .error (.notFound s!"Queue entry with ID {queueId} not found")
    | some queueEntry =>
        let newStatus := statusMapping status
        .ok ({ s with queue := saveUpdated s.queue queueEntry.id (setStatus newStatus) },
             setStatus newStatus queueEntry)

/-- The allow-list of priority values accepted by `updatePriority`. -/
def validPriorities : List String := ["normal", "urgent", "emergency"]

/-- The queue number `updatePriority` assigns when demoting a
queue-number-0 entry to urgent: `count({where: {priority: 'urgent'}}) + 1`,
a count over the whole stored table regardless of status. -/
def urgentRenumber (s : ClinicState) : Nat :=
  s.queue.countP (fun y => y.priority == "urgent") + 1

/-- `QueueService.updatePriority(queueId, priority)`: rejects a priority
outside the allow-list, then `NotFound` if the entry is absent; otherwise
overwrites the priority and adjusts `queueNumber`: `emergency` forces it to
0; `urgent` on an entry whose current `queueNumber` is 0 reassigns it to
`count({where: {priority: 'urgent'}}) + 1`, a count over the stored table
(all statuses, the entry's own stored row still carrying its old
priority). -/
def updatePriority (s : ClinicState) (queueId : Nat) (priority : String) :
    Except ServiceError (ClinicState × QueueEntry) :=
  if ¬ validPriorities.contains priority then
    .error (.badRequest "Invalid priority. Must be one of: normal, urgent, emergency")
  else
    match s.queue.find? (fun e => e.id == queueId) with
    | none => .error (.notFound s!"Queue entry with ID {queueId} not found")
    | some queueEntry =>
        let newNumber : Nat :=
          if priority == "emergency" then 0
          else if priority == "urgent" && queueEntry.queueNumber == 0 then
            (s.queue.countP (fun x => x.priority == "urgent")) + 1
          else queueEntry.queueNumber
        .ok ({ s with queue := saveUpdated s.queue queueEntry.id (setPriorityNumber priority newNumber) },
             setPriorityNumber priority newNumber queueEntry)

/-- `QueueService.removeFromQueue(queueId)`: `NotFound` if absent, else
deletes the row and returns the pre-deletion snapshot. -/
def removeFromQueue (s : ClinicState) (queueId : Nat) :
    Except ServiceError (ClinicState × QueueEntry) :=
  match s.queue.find? (fun e => e.id == queueId) with
  | none => .error (.notFound s!"Queue entry with ID {queueId} not found")
  | some queueEntry =>
      .ok ({ s with queue := s.queue.filter (fun x => ¬ x.id == queueEntry.id) }, queueEntry)

/-- `QueueService.getNextPatient()`:
`findOne({where: {status: 'waiting'}, order: {priority: 'DESC', queueNumber: 'ASC'}})`
— the first row of the waiting entries under the varchar ordering. -/
def getNextPatient (s : ClinicState) : Option QueueEntry :=
  (sortBy priorityDescLe (s.queue.filter (fun e => e.status == "waiting"))).head?

/-- `calculateWaitTime(position)`: `position * 15` minutes rendered as
`HhMMm` / `Mm`. `getEnhancedQueue` invokes it with the 0-based index. -/
def calculateWaitTime (position : Nat) : String :=
  let minutes := position * 15
  let hours := minutes / 60
  let remainingMinutes := minutes % 60
  if hours > 0 then s!"{hours}h {remainingMinutes}m" else s!"{remainingMinutes}m"

/-- `calculateAverageWaitTime(waitingCount)`: `waitingCount * 15` minutes
rendered the same way. -/
def calculateAverageWaitTime (waitingCount : Nat) : String :=
  let avgMinutes := waitingCount * 15
  let hours := avgMinutes / 60
  let minutes := avgMinutes % 60
  if hours > 0 then s!"{hours}h {minutes}m" else s!"{minutes}m"

/-- `getStatusColor` UI helper. -/
def getStatusColor (status : String) : String :=
  if status == "waiting" then "#fbbf24"
  else if status == "with_doctor" then "#3b82f6"
  else if status == "with-doctor" then "#3b82f6"
  else if status == "completed" then "#10b981"
  else if status == "cancelled" then "#ef4444"
  else "#6b7280"

/-- `getPriorityBadge` UI helper. -/
def getPriorityBadge (priority : String) : String :=
  if priority == "emergency" then "🆘 EMERGENCY"
  else if priority == "urgent" then "🚨 URGENT"
  else "⏳ Normal"

/-- `calculateTimeInQueue(createdAt)`: minutes elapsed since `createdAt`
(timestamps in milliseconds), rendered as `HhMMm ago` / `Mm ago`. -/
def calculateTimeInQueue (now createdAt : Nat) : String :=
  let diffMinutes := (now - createdAt) / 60000
  let hours := diffMinutes / 60
  let minutes := diffMinutes % 60
  if hours > 0 then s!"{hours}h {minutes}m ago" else s!"{minutes}m ago"

/-- One element of the enhanced-queue projection: the stored entry spread
together with the derived display fields. -/
structure EnhancedEntry where
  entry : QueueEntry
  position : Nat
  estimatedWaitTime : String
  statusColor : String
  priorityBadge : String
  isUrgent : Bool
  timeInQueue : String
deriving DecidableEq, Repr

/-- The `queue.map((entry, index) => ...)` body of `getEnhancedQueue`:
`position = index + 1`, `estimatedWaitTime = calculateWaitTime(index)`,
plus badge/color/time-in-queue fields. -/
def enhanceFrom (now : Nat) : Nat → List QueueEntry → List EnhancedEntry
  | _, [] => []
  | index, entry :: rest =>
      { entry := entry
        position := index + 1
        estimatedWaitTime := calculateWaitTime index
        statusColor := getStatusColor entry.status
        priorityBadge := getPriorityBadge entry.priority
        isUrgent := entry.priority == "urgent" || entry.priority == "emergency"
        timeInQueue := calculateTimeInQueue now entry.createdAt } :: enhanceFrom now (index + 1) rest

/-- `QueueService.getEnhancedQueue()`: the waiting entries, ordered by
`priority DESC, queueNumber ASC`, mapped to the enhanced projection. A pure
read: the state is untouched. -/
def getEnhancedQueue (s : ClinicState) : List EnhancedEntry :=
  enhanceFrom s.now 0 (sortBy priorityDescLe (s.queue.filter (fun e => e.status == "waiting")))

/-- JS `Math.round(n / d * 100)` for natural `n` and positive `d`:
half-up rounding of `100 * n / d`. -/
def mathRoundPct (n d : Nat) : Nat := (200 * n + d) / (2 * d)

/-- The object returned by `getQueueStats`. -/
structure QueueStats where
  total : Nat
  waiting : Nat
  withDoctor : Nat
  completed : Nat
  urgent : Nat
  emergency : Nat
  averageWaitTime : String
  efficiency : Nat
deriving DecidableEq, Repr

/-- `repository.count({where})` over the queue table. -/
def countWhere (s : ClinicState) (p : QueueEntry → Bool) : Nat :=
  (s.queue.filter p).length

/-- `QueueService.getQueueStats()`: counts by status/priority and
`efficiency = Math.round((completed / Math.max(total, 1)) * 100)` where
`total` counts every entry of any status. -/
def getQueueStats (s : ClinicState) : QueueStats :=
  let total := s.queue.length
  let waiting := countWhere s (fun e => e.status == "waiting")
  let withDoctor := countWhere s (fun e => e.status == "with_doctor")
  let completed := countWhere s (fun e => e.status == "completed")
  let urgent := countWhere s (fun e => e.priority == "urgent" && e.status == "waiting")
  let emergency := countWhere s (fun e => e.priority == "emergency" && e.status == "waiting")
  { total := total, waiting := waiting, withDoctor := withDoctor, completed := completed,
    urgent := urgent, emergency := emergency,
    averageWaitTime := calculateAverageWaitTime waiting,
    efficiency := mathRoundPct completed (max total 1) }

/-- The `Doctor` entity fields consulted by the appointment scheduler. -/
structure Doctor where
  id : Nat
  name : String
  isActive : Bool
deriving DecidableEq, Repr

/-- The `Appointment` entity (`appointments` table). -/
structure Appointment where
  id : Nat
  doctorId : Nat
  patientId : Nat
  appointmentDateTime : Nat
  status : String
  notes : Option String
  createdAt : Nat
deriving DecidableEq, Repr

/-- Persistent state seen by `AppointmentService`. -/
structure SchedState where
  doctors : List Doctor
  patients : List Nat
  appointments : List Appointment
  nextId : Nat
  now : Nat
deriving DecidableEq, Repr

namespace AppointmentService

/-- The `status || 'scheduled'` fallback inside `AppointmentService.create`:
an absent (or JS-falsy, i.e. empty) status becomes `'scheduled'`. -/
def statusOrScheduled (status : Option String) : String :=
  match status with
  | some st => if st == "" then "scheduled" else st
  | none => "scheduled"

/-- `AppointmentService.create`: validates doctor id, doctor existence and
activity, patient existence, and timestamp parseability (`none` models a
string `new Date` rejects); rejects when another appointment for the same
doctor at the exact same timestamp with `status == 'scheduled'` exists;
otherwise inserts with `status || 'scheduled'`. -/
def create (st : SchedState) (doctorId patientId : Nat)
    (appointmentDateTime : Option Nat) (notes : Option String)
    (status : Option String) : Except ServiceError (SchedState × Appointment) :=
  if doctorId == 0 then
    .error (.badRequest "Valid Doctor ID is required for appointments")
  else
    match st.doctors.find? (fun d => d.id == doctorId) with
    | none => .error (.notFound s!"Doctor with ID {doctorId} not found")
    | some doctor =>
      if ¬ doctor.isActive then
        .error (.badRequest s!"Doctor {doctor.name} is currently inactive")
      else if ¬ st.patients.contains patientId then
        .error (.notFound s!"Patient with ID {patientId} not found")
      else
        match appointmentDateTime with
        | none => .error (.badRequest "Invalid appointment date and time format")
        | some t =>
          if (st.appointments.find? (fun a =>
                a.doctorId == doctorId && a.appointmentDateTime == t &&
                a.status == "scheduled")).isSome then
            .error (.badRequest s!"Doctor {doctor.name} already has an appointment at that time")
          else
            let appointment : Appointment :=
              { id := st.nextId, doctorId := doctorId, patientId := patientId,
                appointmentDateTime := t, status := statusOrScheduled status,
                notes := notes, createdAt := st.now }
            .ok ({ st with appointments := st.appointments ++ [appointment],
                           nextId := st.nextId + 1 }, appointment)

/-- The `POST /appointments` pipeline: the global `ValidationPipe` with
`transform: true` instantiates `CreateAppointmentDto`, whose initializer
`status?: string = 'booked'` fills in `'booked'` when the request leaves
status unspecified; the controller then calls `AppointmentService.create`
with the transformed DTO. -/
def createViaController (st : SchedState) (doctorId patientId : Nat)
    (appointmentDateTime : Option Nat) (notes : Option String)
    (status : Option String) : Except ServiceError (SchedState × Appointment) :=
  create st doctorId patientId appointmentDateTime notes (some (status.getD "booked"))

/-- The appointment record inserted by a create request that leaves status
unspecified (after the DTO default `booked` is applied). -/
def mkBookedAppointment (st : SchedState) (d p t : Nat) : Appointment :=
  { id := st.nextId, doctorId := d, patientId := p, appointmentDateTime := t,
    status := "booked", notes := none, createdAt := st.now }

/-- The scheduler state after inserting such a record. -/
def afterBooked (st : SchedState) (d p t : Nat) : SchedState :=
  { st with appointments := st.appointments ++ [mkBookedAppointment st d p t],
            nextId := st.nextId + 1 }

end AppointmentService

/-- The admission-related operations of the queue API surface considered by
property P1: walk-in admission, emergency admission, and removal. -/
inductive QueueOp where
  | add (patientId : Nat) (priority : String) (notes : Option String)
  | emergency (patientId : Nat)
  | remove (queueId : Nat)
deriving DecidableEq, Repr

/-- Execute one operation against the store; a thrown exception aborts the
request and leaves the store unchanged. -/
def runOp (s : ClinicState) : QueueOp → ClinicState
  | .add p pr n =>
      match addToQueue s p pr n with
      | .ok (s', _) => s'
      | .error _ => s
  | .emergency p =>
      match addEmergencyPatient s p with
      | .ok (s', _) => s'
      | .error _ => s
  | .remove i =>
      match removeFromQueue s i with
      | .ok (s', _) => s'
      | .error _ => s

/-- P1's invariant: every patient has at most one `waiting` queue entry. -/
def atMostOneWaiting (s : ClinicState) : Prop :=
  ∀ p : Nat,
    (s.queue.filter (fun e => e.patientId == p && e.status == "waiting")).length ≤ 1

/-- Modelled from the spec: the Queue Statistics efficiency figure as §8
words it, `completed / (completed + waiting)` as a percentage (to be
compared against the figure the code computes). -/
def efficiencySpec (completed waiting : Nat) : Nat :=
  mathRoundPct completed (max (completed + waiting) 1)

end Clinic

namespace Clinic

/-! ### Concrete states used as witnesses and counterexamples -/

/-- A waiting emergency entry at the head-of-line slot. -/
def entryEm : QueueEntry :=
  { id := 1, queueNumber := 0, patientId := 1, status := "waiting",
    priority := "emergency", createdAt := 0 }

/-- A waiting urgent entry with queue number 1. -/
def entryUr : QueueEntry :=
  { id := 2, queueNumber := 1, patientId := 2, status := "waiting",
    priority := "urgent", createdAt := 0 }

/-- Two waiting entries: one emergency (queue number 0), one urgent
(queue number 1). -/
def sEmUr : ClinicState :=
  { patients := [1, 2], queue := [entryEm, entryUr], nextId := 3, now := 0 }

/-- A single normal waiting entry for patient 1. -/
def entryNm : QueueEntry :=
  { id := 1, queueNumber := 1, patientId := 1, status := "waiting",
    priority := "normal", createdAt := 0 }

/-- State with a single normal waiting entry. -/
def sNm : ClinicState :=
  { patients := [1], queue := [entryNm], nextId := 2, now := 0 }

/-- An urgent entry that has already completed consultation. -/
def entryUrDone : QueueEntry :=
  { id := 2, queueNumber := 5, patientId := 2, status := "completed",
    priority := "urgent", createdAt := 0 }

/-- An emergency waiting entry (queue number 0) alongside an urgent
completed entry. -/
def sEmUrDone : ClinicState :=
  { patients := [1, 2], queue := [entryEm, entryUrDone], nextId := 3, now := 0 }

/-- One completed and one cancelled entry, nobody waiting. -/
def sDone : ClinicState :=
  { patients := [1, 2],
    queue := [{ id := 1, queueNumber := 1, patientId := 1, status := "completed",
                priority := "normal", createdAt := 0 },
              { id := 2, queueNumber := 2, patientId := 2, status := "cancelled",
                priority := "normal", createdAt := 0 }],
    nextId := 3, now := 0 }

/-- Scheduler state with an active doctor 4 and patient 1 and an empty
appointment book. -/
def sSched : SchedState :=
  { doctors := [{ id := 4, name := "Dr A", isActive := true }],
    patients := [1], appointments := [], nextId := 1, now := 0 }

/-! ### List helper lemmas -/

/-- `filter` commutes with a map that preserves the predicate pointwise. -/
theorem filter_map_of_pred_invariant {g : QueueEntry → QueueEntry}
    {p : QueueEntry → Bool} (h : ∀ x, p (g x) = p x) :
    ∀ l : List QueueEntry, (l.map g).filter p = (l.filter p).map g := by
  intro l
  induction l with
  | nil => rfl
  | cons a t ih =>
      simp only [List.map_cons, List.filter_cons, h a]
      cases hp : p a <;> simp [ih]

/-- `find?` commutes with a map that preserves the predicate pointwise. -/
theorem find?_map_of_pred_invariant {g : QueueEntry → QueueEntry}
    {p : QueueEntry → Bool} (h : ∀ x, p (g x) = p x) :
    ∀ l : List QueueEntry, (l.map g).find? p = (l.find? p).map g := by
  intro l
  induction l with
  | nil => rfl
  | cons a t ih =>
      simp only [List.map_cons, List.find?_cons, h a]
      cases hp : p a <;> simp [ih]

/-- If nothing in `l1` satisfies the predicate, `find?` over `l1 ++ l2`
searches `l2`. -/
theorem find?_append_eq_none {α : Type} {p : α → Bool} {l1 l2 : List α}
    (h1 : l1.find? p = none) : (l1 ++ l2).find? p = l2.find? p := by
  induction l1 with
  | nil => rfl
  | cons a t ih =>
      cases hpa : p a with
      | true =>
          rw [List.find?_cons_of_pos _ hpa] at h1
          exact absurd h1 (by simp)
      | false =>
          rw [List.find?_cons_of_neg _ (by simp [hpa])] at h1
          rw [List.cons_append, List.find?_cons_of_neg _ (by simp [hpa])]
          exact ih h1

/-- A list of length at most one containing `x` is exactly `[x]`. -/
theorem eq_singleton_of_length_le_one_of_mem {α : Type} {l : List α} {x : α}
    (hlen : l.length ≤ 1) (hx : x ∈ l) : l = [x] := by
  cases l with
  | nil => cases hx
  | cons a t =>
      cases t with
      | nil =>
          rcases List.mem_singleton.mp hx with rfl
          rfl
      | cons b u => simp at hlen

/-! ### Claims -/

/-- C1: the claimed Get-Next-Patient / Enhanced-Queue ordering (rank
emergency > urgent > normal, ties by lower queueNumber) fails on the code:
`ORDER BY priority DESC` on the varchar priority column is lexicographic,
which ranks `urgent` above `emergency`. With a waiting emergency entry
(queueNumber 0) and a waiting urgent entry (queueNumber 1), the code
returns the urgent entry from `getNextPatient` and places it first in the
enhanced projection, while the claim requires the emergency entry first.
The `returns none when nobody waits` part does hold. -/
theorem c1_string_order_ranks_urgent_over_emergency :
    getNextPatient sEmUr = some entryUr ∧
    entryUr.priority = "urgent" ∧ entryEm.priority = "emergency" ∧
    entryEm.status = "waiting" ∧ entryUr.status = "waiting" ∧
    (getEnhancedQueue sEmUr).map (fun x => (x.entry.id, x.position)) = [(2, 1), (1, 2)] ∧
    getNextPatient { patients := [1], queue := [], nextId := 1, now := 0 } = none := by
  decide

/-- C6: a successful `addToQueue` creates an entry with status `waiting`
whose queue number is 0 for emergency priority and (total stored entry
count) + 1 otherwise, appending it to the table. -/
theorem c6_addToQueue_waiting_and_queue_number (s : ClinicState) (p : Nat)
    (pr : String) (n : Option String) (s' : ClinicState) (e : QueueEntry)
    (h : addToQueue s p pr n = .ok (s', e)) :
    e.status = "waiting" ∧
    e.queueNumber = (if pr = "emergency" then 0 else s.queue.length + 1) ∧
    s'.queue = s.queue ++ [e] := by
  unfold addToQueue at h
  split at h
  · exact absurd h (by simp)
  · split at h
    · exact absurd h (by simp)
    · simp only [Except.ok.injEq, Prod.mk.injEq] at h
      obtain ⟨hs, he⟩ := h
      subst he
      subst hs
      refine ⟨rfl, ?_, rfl⟩
      by_cases hpr : pr = "emergency" <;> simp [hpr]

/-- C6 witness: admitting patient 1 into the two-entry state `sEmUrDone`
with default priority yields a waiting entry with queue number 3. -/
theorem c6_addToQueue_waiting_and_queue_number_witness :
    ∃ s' e, addToQueue sEmUrDone 2 "normal" none = .ok (s', e) ∧
      e.status = "waiting" ∧ e.queueNumber = 3 := by
  obtain ⟨h1, h2, h3⟩ := c6_addToQueue_waiting_and_queue_number sEmUrDone 2 "normal" none _ _ rfl
  exact ⟨_, _, rfl, h1, by rw [h2]; decide⟩

/-- C10: the optional `notes` argument of `addToQueue` has no influence on
the operation at all — the `Queue` entity has no notes column and the
created record is built from queueNumber, patientId, status and priority
only — so the result (state and returned entry alike) is identical for any
two notes values. -/
theorem c10_notes_noninterference (s : ClinicState) (p : Nat) (pr : String)
    (n1 n2 : Option String) : addToQueue s p pr n1 = addToQueue s p pr n2 := rfl

/-- C8 counterexample: with a single waiting entry the enhanced view
reports position 1 with `estimatedWaitTime = "0m"`, whereas the claim
(position × 15 minutes) predicts `"15m"` (`calculateWaitTime 1`): the code
passes the 0-based index, not the 1-based position, to
`calculateWaitTime`. -/
theorem c8_counterexample_zero_wait_at_first_position :
    (getEnhancedQueue sNm).map (fun x => (x.position, x.estimatedWaitTime)) = [(1, "0m")] ∧
    calculateWaitTime 1 = "15m" ∧ ("0m" : String) ≠ "15m" := by
  decide

/-- Helper for C8: every element produced by `enhanceFrom` carries
`estimatedWaitTime = calculateWaitTime (position - 1)`. -/
theorem enhanceFrom_estimatedWaitTime (now : Nat) :
    ∀ (i : Nat) (l : List QueueEntry) (x : EnhancedEntry), x ∈ enhanceFrom now i l →
      1 ≤ x.position ∧ x.estimatedWaitTime = calculateWaitTime (x.position - 1) := by
  intro i l
  induction l generalizing i with
  | nil => intro x hx; cases hx
  | cons a t ih =>
      intro x hx
      rcases List.mem_cons.mp hx with rfl | hx'
      · exact ⟨Nat.succ_le_succ (Nat.zero_le i), rfl⟩
      · exact ih (i + 1) x hx'

/-- C8 (amended): in the Enhanced Queue view every element's
`estimatedWaitTime` equals (position − 1) × 15 minutes — the code feeds the
0-based index to the ×15 wait formula — rendered by `calculateWaitTime`;
the view is a pure projection (its type reads the state and returns a
fresh list, mutating nothing). -/
theorem c8_estimated_wait_is_position_minus_one_times_15 (s : ClinicState)
    (x : EnhancedEntry) (hx : x ∈ getEnhancedQueue s) :
    1 ≤ x.position ∧ x.estimatedWaitTime = calculateWaitTime (x.position - 1) :=
  enhanceFrom_estimatedWaitTime s.now 0 _ x hx

/-- C8 witness: the amended statement instantiated on the one-entry state
`sNm`. -/
theorem c8_estimated_wait_witness :
    1 ≤ (1 : Nat) ∧ ("0m" : String) = calculateWaitTime (1 - 1) := by
  have h := c8_estimated_wait_is_position_minus_one_times_15 sNm
    { entry := entryNm, position := 1, estimatedWaitTime := "0m",
      statusColor := "#fbbf24", priorityBadge := "⏳ Normal",
      isUrgent := false, timeInQueue := "0m ago" } (by decide)
  exact h

/-- C9 counterexample: with one completed and one cancelled entry (nobody
waiting) the code reports efficiency 50 — it divides by the total entry
count, `max(total, 1)` — while the claimed formula
completed/(completed+waiting) gives 100. -/
theorem c9_counterexample_efficiency_divides_by_total :
    (getQueueStats sDone).efficiency = 50 ∧
    efficiencySpec (getQueueStats sDone).completed (getQueueStats sDone).waiting = 100 ∧
    (50 : Nat) ≠ 100 := by
  decide

/-- Helper for C9: when every entry is completed or waiting, the two
counts partition the table. -/
theorem completed_add_waiting_eq_length :
    ∀ l : List QueueEntry, (∀ e ∈ l, e.status = "completed" ∨ e.status = "waiting") →
      (l.filter (fun e => e.status == "completed")).length +
        (l.filter (fun e => e.status == "waiting")).length = l.length := by
  intro l
  induction l with
  | nil => intro _; rfl
  | cons a t ih =>
      intro h
      have ha := h a (List.mem_cons_self a t)
      have ht := ih (fun e he => h e (List.mem_cons_of_mem a he))
      rcases ha with ha | ha <;> simp [List.filter_cons, ha] <;> omega

/-- C9 (amended): `getQueueStats` computes
`efficiency = Math.round(completed / max(total, 1) * 100)` where `total`
counts every entry of any status; this agrees with the claimed
completed/(completed+waiting) percentage exactly when every entry is
completed or waiting (no with_doctor/cancelled entries). -/
theorem c9_efficiency_divides_by_total (s : ClinicState) :
    (getQueueStats s).efficiency =
      mathRoundPct (countWhere s (fun e => e.status == "completed")) (max s.queue.length 1) ∧
    ((∀ e ∈ s.queue, e.status = "completed" ∨ e.status = "waiting") →
      (getQueueStats s).efficiency =
        efficiencySpec (getQueueStats s).completed (getQueueStats s).waiting) := by
  refine ⟨rfl, ?_⟩
  intro h
  have hsum := completed_add_waiting_eq_length s.queue h
  show mathRoundPct ((s.queue.filter (fun e => e.status == "completed")).length)
        (max s.queue.length 1) =
      mathRoundPct ((s.queue.filter (fun e => e.status == "completed")).length)
        (max ((s.queue.filter (fun e => e.status == "completed")).length +
              (s.queue.filter (fun e => e.status == "waiting")).length) 1)
  rw [hsum]

/-- C9 witness: on the all-waiting state `sNm` the code's efficiency and
the claimed formula agree (both 0). -/
theorem c9_efficiency_witness :
    (getQueueStats sNm).efficiency =
      efficiencySpec (getQueueStats sNm).completed (getQueueStats sNm).waiting :=
  (c9_efficiency_divides_by_total sNm).2 (by decide)

/-- C3 counterexample: `with_doctor` — an element of the claimed accepted
set — is rejected by `updateStatus` with BadRequest; the allow-list is
hyphenated (`with-doctor`), which is accepted and stored as
`with_doctor`. -/
theorem c3_counterexample_with_doctor_rejected :
    updateStatus sNm 1 "with_doctor" =
      .error (.badRequest
        "Invalid status. Must be one of: waiting, with-doctor, completed, cancelled") ∧
    (∃ s' e', updateStatus sNm 1 "with-doctor" = .ok (s', e') ∧ e'.status = "with_doctor") := by
  exact ⟨rfl, ⟨_, _, rfl, rfl⟩⟩

/-- C3 (amended): `updateStatus` rejects any value outside
{waiting, with-doctor, completed, cancelled} with BadRequest before
touching the store (the error result carries no state, so the stored entry
is untouched), and accepts every value inside that set, storing it through
`statusMapping` (`with-doctor` is persisted as `with_doctor`). -/
theorem c3_status_allow_list (s : ClinicState) (qid : Nat) (status : String) :
    (status ∉ (["waiting", "with-doctor", "completed", "cancelled"] : List String) →
      updateStatus s qid status =
        .error (.badRequest
          "Invalid status. Must be one of: waiting, with-doctor, completed, cancelled")) ∧
    (status ∈ (["waiting", "with-doctor", "completed", "cancelled"] : List String) →
      ∀ e, s.queue.find? (fun x => x.id == qid) = some e →
        updateStatus s qid status =
          .ok ({ s with queue := saveUpdated s.queue e.id (setStatus (statusMapping status)) },
               setStatus (statusMapping status) e)) := by
  constructor
  · intro hnot
    have hc : validStatuses.contains status = false := by
      unfold validStatuses
      simpa using hnot
    unfold updateStatus
    simp only [hc]
    simp
  · intro hmem e he
    have hc : validStatuses.contains status = true := by
      unfold validStatuses
      simpa using hmem
    unfold updateStatus
    simp only [hc, he]
    simp

/-- C3 witness: the amended statement instantiated — the out-of-set value
`with_doctor` is rejected, and the in-set value `with-doctor` is accepted
and stored as `with_doctor`. -/
theorem c3_status_allow_list_witness :
    updateStatus sNm 1 "with_doctor" =
      .error (.badRequest
        "Invalid status. Must be one of: waiting, with-doctor, completed, cancelled") ∧
    updateStatus sNm 1 "with-doctor" =
      .ok ({ sNm with queue := saveUpdated sNm.queue entryNm.id (setStatus (statusMapping "with-doctor")) },
           setStatus (statusMapping "with-doctor") entryNm) := by
  exact ⟨(c3_status_allow_list sNm 1 "with_doctor").1 (by decide),
         (c3_status_allow_list sNm 1 "with-doctor").2 (by decide) entryNm rfl⟩

/-- C7 counterexample: promoting the emergency head-of-line entry (queue
number 0) to `urgent` assigns queue number 2 in the state `sEmUrDone`,
because the code counts every stored entry with priority `urgent`
regardless of status (here an urgent *completed* entry), whereas the claim
\"(count of other urgent, waiting entries) + 1\" predicts 1. -/
theorem c7_counterexample_urgent_count_ignores_status :
    updatePriority sEmUrDone 1 "urgent" =
      .ok ({ sEmUrDone with
               queue := [setPriorityNumber "urgent" 2 entryEm, entryUrDone] },
           setPriorityNumber "urgent" 2 entryEm) ∧
    (sEmUrDone.queue.filter (fun x =>
        x.priority == "urgent" && x.status == "waiting" && ¬ x.id == 1)).length + 1 = 1 ∧
    (2 : Nat) ≠ 1 := by
  exact ⟨rfl, by decide, by decide⟩

/-- C7 (amended): `updatePriority` to `urgent` on an entry whose current
queue number is 0 sets priority `urgent` and queue number
(count of stored entries of ANY status with priority `urgent`, the target
row still carrying its old stored priority) + 1; `updatePriority` to
`emergency` forces queue number 0. -/
theorem c7_update_priority_renumbering (s : ClinicState) (qid : Nat)
    (e : QueueEntry) (he : s.queue.find? (fun x => x.id == qid) = some e) :
    (e.queueNumber = 0 →
      updatePriority s qid "urgent" =
        .ok ({ s with
                 queue := saveUpdated s.queue e.id (setPriorityNumber "urgent" (urgentRenumber s)) },
             setPriorityNumber "urgent" (urgentRenumber s) e)) ∧
    (updatePriority s qid "emergency" =
      .ok ({ s with queue := saveUpdated s.queue e.id (setPriorityNumber "emergency" 0) },
           setPriorityNumber "emergency" 0 e)) := by
  constructor
  · intro hq
    unfold updatePriority urgentRenumber
    simp [he, hq]
    decide
  · unfold updatePriority
    simp [he]
    decide

/-- C7 witness: the amended statement instantiated on `sEmUrDone`
(urgent demotion of the queue-number-0 entry gives queue number 2;
emergency promotion gives queue number 0). -/
theorem c7_update_priority_renumbering_witness :
    (∃ s', updatePriority sEmUrDone 1 "urgent" =
      .ok (s', setPriorityNumber "urgent" 2 entryEm)) ∧
    (∃ s', updatePriority sEmUrDone 1 "emergency" =
      .ok (s', setPriorityNumber "emergency" 0 entryEm)) := by
  obtain ⟨h1, h2⟩ := c7_update_priority_renumbering sEmUrDone 1 entryEm rfl
  have hu := h1 rfl
  have hval : urgentRenumber sEmUrDone = 2 := by decide
  rw [hval] at hu
  exact ⟨⟨_, hu⟩, ⟨_, h2⟩⟩

/-- C2: when both requests for the same doctor and the same timestamp leave
status unspecified, the controller's DTO transform fills in the default
`booked`; the conflict check only matches `status == 'scheduled'`, so it
rejects neither request and both creations succeed with stored status
`booked`. -/
theorem c2_default_booked_defeats_conflict_check
    (st : SchedState) (d p t : Nat) (doc : Doctor)
    (hd : (d == 0) = false)
    (hdoc : st.doctors.find? (fun x => x.id == d) = some doc)
    (hact : doc.isActive = true)
    (hp : st.patients.contains p = true)
    (hconf : st.appointments.find? (fun a =>
        a.doctorId == d && a.appointmentDateTime == t && a.status == "scheduled") = none) :
    ∃ st1 a1 st2 a2,
      AppointmentService.createViaController st d p (some t) none none = .ok (st1, a1) ∧
      a1.status = "booked" ∧
      AppointmentService.createViaController st1 d p (some t) none none = .ok (st2, a2) ∧
      a2.status = "booked" ∧
      st2.appointments = st.appointments ++ [a1, a2] := by
  have hp' : p ∈ st.patients := by simpa using hp
  have hnoex1 : ¬ ∃ x ∈ st.appointments,
      (x.doctorId = d ∧ x.appointmentDateTime = t) ∧ x.status = "scheduled" := by
    rintro ⟨x, hx, ⟨h1, h2⟩, h3⟩
    have hnone := List.find?_eq_none.mp hconf x hx
    simp [h1, h2, h3] at hnone
  have e1 : AppointmentService.createViaController st d p (some t) none none =
      .ok (AppointmentService.afterBooked st d p t, AppointmentService.mkBookedAppointment st d p t) := by
    unfold AppointmentService.createViaController AppointmentService.create
    rw [hdoc]
    simp [hd, hact, hp', hnoex1, AppointmentService.mkBookedAppointment,
      AppointmentService.afterBooked, AppointmentService.statusOrScheduled]
  have hconf1 : ((AppointmentService.afterBooked st d p t).appointments.find? (fun a =>
      a.doctorId == d && a.appointmentDateTime == t && a.status == "scheduled")) = none := by
    show ((st.appointments ++ [AppointmentService.mkBookedAppointment st d p t]).find? (fun a =>
      a.doctorId == d && a.appointmentDateTime == t && a.status == "scheduled")) = none
    rw [find?_append_eq_none hconf]
    simp [AppointmentService.mkBookedAppointment]
  have hnoex2 : ¬ ∃ x ∈ (AppointmentService.afterBooked st d p t).appointments,
      (x.doctorId = d ∧ x.appointmentDateTime = t) ∧ x.status = "scheduled" := by
    rintro ⟨x, hx, ⟨h1, h2⟩, h3⟩
    have hnone := List.find?_eq_none.mp hconf1 x hx
    simp [h1, h2, h3] at hnone
  have e2 : AppointmentService.createViaController (AppointmentService.afterBooked st d p t)
        d p (some t) none none =
      .ok (AppointmentService.afterBooked (AppointmentService.afterBooked st d p t) d p t,
           AppointmentService.mkBookedAppointment (AppointmentService.afterBooked st d p t) d p t) := by
    unfold AppointmentService.createViaController AppointmentService.create
    rw [show (AppointmentService.afterBooked st d p t).doctors.find? (fun x => x.id == d) =
        st.doctors.find? (fun x => x.id == d) from rfl, hdoc]
    simp [hd, hact, hp', hnoex2, AppointmentService.mkBookedAppointment,
      AppointmentService.afterBooked, AppointmentService.statusOrScheduled]
    intro x hx h1 h2
    have hnone := List.find?_eq_none.mp hconf x hx
    simp [h1, h2] at hnone
    exact hnone
  refine ⟨_, _, _, _, e1, rfl, e2, rfl, ?_⟩
  simp [AppointmentService.afterBooked]

/-- C2 witness: two unspecified-status requests for doctor 4 at the same
timestamp (2024-05-01T10:00:00Z in epoch milliseconds) both succeed with
status `booked` on the empty appointment book. -/
theorem c2_default_booked_witness :
    ∃ st1 a1 st2 a2,
      AppointmentService.createViaController sSched 4 1 (some 1714557600000) none none = .ok (st1, a1) ∧
      a1.status = "booked" ∧
      AppointmentService.createViaController st1 4 1 (some 1714557600000) none none = .ok (st2, a2) ∧
      a2.status = "booked" ∧
      st2.appointments = sSched.appointments ++ [a1, a2] :=
  c2_default_booked_defeats_conflict_check sSched 4 1 1714557600000
    { id := 4, name := "Dr A", isActive := true } rfl rfl rfl rfl rfl

/-- C5: `addEmergencyPatient` on a patient who already has a waiting entry
promotes that entry in place to `priority = emergency, queueNumber = 0`
without creating a new row (table length unchanged, exactly one waiting
entry for the patient remains), and the whole operation is idempotent:
a second call returns exactly the same state and entry. -/
theorem c5_emergency_promotion_idempotent (s : ClinicState) (p : Nat) (e : QueueEntry)
    (hp : patientExists s p = true)
    (hw : findWaitingByPatient s p = some e)
    (hone : atMostOneWaiting s) :
    ∃ s', addEmergencyPatient s p = .ok (s', promoteEmergency e) ∧
      (promoteEmergency e).priority = "emergency" ∧
      (promoteEmergency e).queueNumber = 0 ∧
      s'.queue.length = s.queue.length ∧
      s'.queue.filter (fun x => x.patientId == p && x.status == "waiting") = [promoteEmergency e] ∧
      addEmergencyPatient s' p = .ok (s', promoteEmergency e) := by
  have hw' : s.queue.find? (fun x => x.patientId == p && x.status == "waiting") = some e := hw
  have hpe := List.find?_some hw'
  have hme : e ∈ s.queue := List.mem_of_find?_eq_some hw'
  have hpred : ∀ x : QueueEntry,
      ((if x.id == e.id then promoteEmergency x else x).patientId == p &&
        (if x.id == e.id then promoteEmergency x else x).status == "waiting") =
      (x.patientId == p && x.status == "waiting") := by
    intro x
    by_cases h : (x.id == e.id) = true <;> simp [h, promoteEmergency, setPriorityNumber]
  have hfilter : s.queue.filter (fun y => y.patientId == p && y.status == "waiting") = [e] :=
    eq_singleton_of_length_le_one_of_mem (hone p) (List.mem_filter.mpr ⟨hme, by simpa using hpe⟩)
  have hgg : ∀ x : QueueEntry,
      (if (if x.id == e.id then promoteEmergency x else x).id == e.id then
        promoteEmergency (if x.id == e.id then promoteEmergency x else x)
      else (if x.id == e.id then promoteEmergency x else x)) =
      (if x.id == e.id then promoteEmergency x else x) := by
    intro x
    by_cases h : (x.id == e.id) = true
    · simp [h, promoteEmergency, setPriorityNumber]
    · simp [h]
  refine ⟨{ s with queue := saveUpdated s.queue e.id promoteEmergency }, ?_, rfl, rfl, ?_, ?_, ?_⟩
  · unfold addEmergencyPatient
    simp [hp, hw]
  · simp [saveUpdated]
  · show (s.queue.map _).filter _ = _
    rw [filter_map_of_pred_invariant hpred, hfilter]
    simp
  · have hfind2 : findWaitingByPatient
        { s with queue := saveUpdated s.queue e.id promoteEmergency } p =
        some (promoteEmergency e) := by
      show (s.queue.map _).find? _ = _
      rw [find?_map_of_pred_invariant hpred, hw']
      simp
    have hpx : patientExists { s with queue := saveUpdated s.queue e.id promoteEmergency } p = true := hp
    unfold addEmergencyPatient
    simp only [hpx, hfind2]
    have hqq : saveUpdated (saveUpdated s.queue e.id promoteEmergency)
        e.id promoteEmergency = saveUpdated s.queue e.id promoteEmergency := by
      show (s.queue.map _).map _ = s.queue.map _
      rw [List.map_map]
      exact List.map_congr_left (fun x _ => hgg x)
    simp [promoteEmergency, setPriorityNumber, hqq]

/-- C5 witness: promoting the waiting normal entry of patient 1 in `sNm`
twice yields the same single emergency entry with queue number 0. -/
theorem c5_emergency_promotion_witness :
    ∃ s', addEmergencyPatient sNm 1 = .ok (s', promoteEmergency entryNm) ∧
      (promoteEmergency entryNm).priority = "emergency" ∧
      (promoteEmergency entryNm).queueNumber = 0 ∧
      s'.queue.length = sNm.queue.length ∧
      s'.queue.filter (fun x => x.patientId == 1 && x.status == "waiting") = [promoteEmergency entryNm] ∧
      addEmergencyPatient s' 1 = .ok (s', promoteEmergency entryNm) :=
  c5_emergency_promotion_idempotent sNm 1 entryNm rfl rfl
    (by
      intro q
      show (List.filter _ [entryNm]).length ≤ 1
      cases h : (entryNm.patientId == q && entryNm.status == "waiting") <;>
        simp [List.filter_cons, h])

/-- Inversion of a successful `addToQueue`: the patient had no waiting
entry, and the new row — waiting, for that patient — was appended. -/
theorem addToQueue_ok_inv {s : ClinicState} {p : Nat} {pr : String}
    {n : Option String} {s' : ClinicState} {e : QueueEntry}
    (h : addToQueue s p pr n = .ok (s', e)) :
    findWaitingByPatient s p = none ∧ s'.queue = s.queue ++ [e] ∧
      e.patientId = p ∧ e.status = "waiting" := by
  unfold addToQueue at h
  split at h
  · simp at h
  · split at h
    · simp at h
    · rename_i hsome
      have hnone : findWaitingByPatient s p = none := by
        cases hfw : findWaitingByPatient s p
        · rfl
        · rw [hfw] at hsome; simp at hsome
      simp only [Except.ok.injEq, Prod.mk.injEq] at h
      obtain ⟨hs, he⟩ := h
      subst he
      subst hs
      exact ⟨hnone, rfl, rfl, rfl⟩

/-- Inversion of a successful `addEmergencyPatient`: either an existing
waiting entry was promoted in place, or a waiting emergency row was
appended while the patient had no waiting entry. -/
theorem addEmergencyPatient_ok_inv {s : ClinicState} {p : Nat}
    {s' : ClinicState} {e : QueueEntry}
    (h : addEmergencyPatient s p = .ok (s', e)) :
    (∃ e0, findWaitingByPatient s p = some e0 ∧
      s'.queue = saveUpdated s.queue e0.id promoteEmergency) ∨
    (findWaitingByPatient s p = none ∧ s'.queue = s.queue ++ [e] ∧
      e.patientId = p ∧ e.status = "waiting") := by
  unfold addEmergencyPatient at h
  split at h
  · simp at h
  · split at h
    · rename_i e0 hfw
      simp only [Except.ok.injEq, Prod.mk.injEq] at h
      obtain ⟨hs, he⟩ := h
      subst hs
      exact .inl ⟨e0, hfw, rfl⟩
    · rename_i hfw
      simp only [Except.ok.injEq, Prod.mk.injEq] at h
      obtain ⟨hs, he⟩ := h
      subst he
      subst hs
      exact .inr ⟨hfw, rfl, rfl, rfl⟩

/-- Inversion of a successful `removeFromQueue`: the surviving rows are
those whose id differs from the removed entry's. -/
theorem removeFromQueue_ok_inv {s : ClinicState} {i : Nat}
    {s' : ClinicState} {e : QueueEntry}
    (h : removeFromQueue s i = .ok (s', e)) :
    s'.queue = s.queue.filter (fun x => ¬ x.id == e.id) := by
  unfold removeFromQueue at h
  split at h
  · simp at h
  · rename_i e0 hfind
    simp only [Except.ok.injEq, Prod.mk.injEq] at h
    obtain ⟨hs, he⟩ := h
    subst he
    subst hs
    rfl

/-- Appending a fresh waiting row for a patient with no waiting entry
keeps the per-patient waiting count at most one. -/
theorem atMostOneWaiting_append {s : ClinicState} {e : QueueEntry}
    (h : atMostOneWaiting s) (hfw : findWaitingByPatient s p = none)
    (hpid : e.patientId = p) (hst : e.status = "waiting") :
    ∀ q : Nat,
      ((s.queue ++ [e]).filter (fun x => x.patientId == q && x.status == "waiting")).length ≤ 1 := by
  intro q
  rw [List.filter_append]
  cases hpe : (e.patientId == q && e.status == "waiting") with
  | false =>
      simp [List.filter_cons, hpe]
      exact h q
  | true =>
      have hq : q = p := by
        have h1 := ((Bool.and_eq_true _ _).mp hpe).1
        rw [hpid] at h1
        exact (beq_iff_eq.mp h1).symm
      subst hq
      have hnil : s.queue.filter (fun x => x.patientId == q && x.status == "waiting") = [] := by
        have hall := List.find?_eq_none.mp hfw
        apply List.filter_eq_nil_iff.mpr
        intro a ha
        exact hall a ha
      rw [hnil]
      simp [List.filter_cons, hpe]

/-- Every single queue operation preserves the single-waiting-entry
invariant. -/
theorem runOp_preserves (s : ClinicState) (op : QueueOp)
    (h : atMostOneWaiting s) : atMostOneWaiting (runOp s op) := by
  cases op with
  | add p pr n =>
      show atMostOneWaiting (match addToQueue s p pr n with
        | .ok (s', _) => s'
        | .error _ => s)
      cases haq : addToQueue s p pr n with
      | error err => exact h
      | ok pair =>
          obtain ⟨s', e⟩ := pair
          obtain ⟨hfw, hq, hpid, hst⟩ := addToQueue_ok_inv haq
          intro q
          rw [hq]
          exact atMostOneWaiting_append h hfw hpid hst q
  | emergency p =>
      show atMostOneWaiting (match addEmergencyPatient s p with
        | .ok (s', _) => s'
        | .error _ => s)
      cases haq : addEmergencyPatient s p with
      | error err => exact h
      | ok pair =>
          obtain ⟨s', e⟩ := pair
          rcases addEmergencyPatient_ok_inv haq with ⟨e0, hfw, hq⟩ | ⟨hfw, hq, hpid, hst⟩
          · intro q
            rw [hq]
            have hpred : ∀ x : QueueEntry,
                ((if x.id == e0.id then promoteEmergency x else x).patientId == q &&
                  (if x.id == e0.id then promoteEmergency x else x).status == "waiting") =
                (x.patientId == q && x.status == "waiting") := by
              intro x
              by_cases hx : (x.id == e0.id) = true <;>
                simp [hx, promoteEmergency, setPriorityNumber]
            show ((s.queue.map _).filter _).length ≤ 1
            rw [filter_map_of_pred_invariant hpred]
            rw [List.length_map]
            exact h q
          · intro q
            rw [hq]
            exact atMostOneWaiting_append h hfw hpid hst q
  | remove i =>
      show atMostOneWaiting (match removeFromQueue s i with
        | .ok (s', _) => s'
        | .error _ => s)
      cases haq : removeFromQueue s i with
      | error err => exact h
      | ok pair =>
          obtain ⟨s', e⟩ := pair
          have hq := removeFromQueue_ok_inv haq
          intro q
          rw [hq]
          calc ((s.queue.filter (fun x => ¬ x.id == e.id)).filter
                  (fun x => x.patientId == q && x.status == "waiting")).length
              ≤ (s.queue.filter (fun x => x.patientId == q && x.status == "waiting")).length :=
                ((List.filter_sublist s.queue).filter _).length_le
            _ ≤ 1 := h q

/-- Any sequence of queue operations preserves the invariant. -/
theorem foldl_runOp_preserves (ops : List QueueOp) :
    ∀ s : ClinicState, atMostOneWaiting s → atMostOneWaiting (ops.foldl runOp s) := by
  induction ops with
  | nil => intro s h; exact h
  | cons op rest ih => intro s h; exact ih _ (runOp_preserves s op h)

/-- C4: starting from a state where every patient has at most one waiting
entry, any sequence of `addToQueue` / `addEmergencyPatient` /
`removeFromQueue` operations keeps it that way; and `addToQueue` on an
existing patient who already has a waiting entry fails with BadRequest
and leaves the state untouched. -/
theorem c4_single_waiting_invariant (s : ClinicState) (ops : List QueueOp)
    (h : atMostOneWaiting s) :
    atMostOneWaiting (ops.foldl runOp s) ∧
    (∀ p pr n, patientExists s p = true → (findWaitingByPatient s p).isSome = true →
      addToQueue s p pr n = .error (.badRequest "Patient is already in the waiting queue") ∧
      runOp s (.add p pr n) = s) := by
  refine ⟨foldl_runOp_preserves ops s h, ?_⟩
  intro p pr n hpat hwait
  have herr : addToQueue s p pr n =
      .error (.badRequest "Patient is already in the waiting queue") := by
    unfold addToQueue
    simp [hpat, hwait]
  refine ⟨herr, ?_⟩
  show (match addToQueue s p pr n with
    | .ok (s', _) => s'
    | .error _ => s) = s
  rw [herr]

/-- C4 witness: the invariant instantiated on `sNm` with a duplicate
admission, an emergency promotion and a removal; the duplicate admission
itself is rejected with BadRequest. -/
theorem c4_single_waiting_invariant_witness :
    atMostOneWaiting
      ([QueueOp.add 1 "normal" none, QueueOp.emergency 1, QueueOp.remove 1].foldl runOp sNm) ∧
    addToQueue sNm 1 "normal" none =
      .error (.badRequest "Patient is already in the waiting queue") := by
  have hone : atMostOneWaiting sNm := by
    intro q
    show (List.filter _ [entryNm]).length ≤ 1
    cases h : (entryNm.patientId == q && entryNm.status == "waiting") <;>
      simp [List.filter_cons, h]
  obtain ⟨h1, h2⟩ := c4_single_waiting_invariant sNm
    [QueueOp.add 1 "normal" none, QueueOp.emergency 1, QueueOp.remove 1] hone
  exact ⟨h1, (h2 1 "normal" none rfl rfl).1⟩

end Clinic
